import Mathlib

/-!
# Verification of the relationship-tracker data and notification layer

This file is a shallow embedding, in Lean 4, of the repository's
`DatabaseService` (SQLite-backed profile/reminder/interaction/life-event
storage with a web-fallback mock mode and a best-effort remote mirror) and
`NotificationService` (permission-gated one-shot notification scheduling
with a minimum-delay buffer).  Pure functions of the source are translated
to Lean functions; the SQLite database becomes an explicit state record and
each service method a state transformer.  Theorems at the end settle the
specification's claims about these operations.
-/

namespace Armi

/-! ## JSON serialization of list-valued fields

`DatabaseService.createOrUpdateProfile` stores each list-valued profile
field with `JSON.stringify` and the readers recover it with `JSON.parse`.
The list elements handled by the repository are strings (the screens build
them by splitting comma-separated input), so we embed `JSON.stringify` on an
array of strings: each element is quoted with `"` and `\` escaped by a
backslash, elements are joined with `,` inside `[` `]`.  The parser below
models `JSON.parse` on exactly this output sublanguage (it returns `none`
where the real `JSON.parse` would throw a `SyntaxError` or produce a
non-array value). -/

/-- Escape `"` and `\` with a leading backslash, as `JSON.stringify` does
for string values. -/
def escChars : List Char → List Char
  | [] => []
  | c :: cs =>
    if c = '"' ∨ c = '\\' then '\\' :: c :: escChars cs
    else c :: escChars cs

/-- The character sequence of `JSON.stringify` applied to one string. -/
def strChars (s : String) : List Char :=
  '"' :: (escChars s.data ++ ['"'])

/-- The character sequence between the brackets of `JSON.stringify`
applied to an array of strings: elements joined by `,`. -/
def elemsChars : List String → List Char
  | [] => []
  | [x] => strChars x
  | x :: y :: ys => strChars x ++ ',' :: elemsChars (y :: ys)

/-- `JSON.stringify` on an array of strings. -/
def jsonStringifyList (xs : List String) : String :=
  String.mk ('[' :: (elemsChars xs ++ [']']))

/-- Parse the body of a JSON string after its opening quote: returns the
decoded content and the remaining input after the closing quote. -/
def parseStringBody : List Char → Option (List Char × List Char)
  | [] => none
  | c :: cs =>
    if c = '\\' then
      match cs with
      | [] => none
      | d :: cs2 =>
        match parseStringBody cs2 with
        | none => none
        | some (content, rest) => some (d :: content, rest)
    else if c = '"' then
      some ([], cs)
    else
      match parseStringBody cs with
      | none => none
      | some (content, rest) => some (c :: content, rest)

/-- Parse one JSON string literal (opening quote included). -/
def parseJsonString : List Char → Option (List Char × List Char)
  | [] => none
  | c :: cs => if c = '"' then parseStringBody cs else none

/-- Parse a non-empty `,`-separated sequence of JSON strings terminated by
`]`; fuel bounds the number of elements. -/
def parseElemsLoop : Nat → List Char → Option (List String × List Char)
  | 0, _ => none
  | fuel + 1, cs =>
    match parseJsonString cs with
    | none => none
    | some (content, rest) =>
      match rest with
      | ',' :: rest2 =>
        match parseElemsLoop fuel rest2 with
        | none => none
        | some (xs, rest3) => some (String.mk content :: xs, rest3)
      | ']' :: rest2 => some ([String.mk content], rest2)
      | _ => none

/-- `JSON.parse` restricted to the arrays of strings produced by
`jsonStringifyList`; `none` models a thrown `SyntaxError` (or a parse
result that is not an array of strings). -/
def jsonParseChars : List Char → Option (List String)
  | [] => none
  | c :: rest =>
    if c = '[' then
      if rest = [']'] then some []
      else
        match parseElemsLoop (rest.length + 1) rest with
        | some (xs, []) => some xs
        | _ => none
    else none

/-- `JSON.parse` of a string, expecting an array of strings. -/
def jsonParseList (s : String) : Option (List String) :=
  jsonParseChars s.data

/-! ## The embedded database

The SQLite tables created by `DatabaseService.createTables` become record
types; each row holds the column values (a nullable column is an `Option`).
`name` in `profiles`, and `title`/`scheduledFor` in `reminders`, are
`NOT NULL` columns, so they are plain values.  List-valued profile fields
are stored as the `TEXT` produced by `JSON.stringify` (or `NULL`). -/

/-- A row of the `profiles` table. -/
structure ProfileRow where
  id : Nat
  name : String
  age : Option Int
  phone : Option String
  email : Option String
  relationship : Option String
  job : Option String
  notes : Option String
  tags : Option String
  photoUri : Option String
  parents : Option String
  kids : Option String
  brothers : Option String
  sisters : Option String
  siblings : Option String
  pets : Option String
  foodLikes : Option String
  foodDislikes : Option String
  interests : Option String
  instagram : Option String
  snapchat : Option String
  twitter : Option String
  tiktok : Option String
  facebook : Option String
  birthday : Option String
  lastContactDate : Option String
  createdAt : String
  updatedAt : String
  deriving DecidableEq

/-- A row of the `reminders` table. -/
structure ReminderRow where
  id : Nat
  profileId : Option Nat
  title : String
  description : Option String
  type : String
  scheduledFor : String
  completed : Int
  completedAt : Option String
  notificationId : Option String
  createdAt : String
  deriving DecidableEq

/-- A row of the `interactions` table. -/
structure InteractionRow where
  id : Nat
  profileId : Option Nat
  description : String
  extractedData : Option String
  type : String
  location : Option String
  createdAt : String
  deriving DecidableEq

/-- A row of the `life_events` table. -/
structure LifeEventRow where
  id : Nat
  profileId : Option Nat
  eventType : String
  description : Option String
  eventDate : Option String
  importance : Int
  createdAt : String
  deriving DecidableEq

/-- A row of the `feedback` table. -/
structure FeedbackRow where
  id : Nat
  type : String
  subject : String
  message : String
  userEmail : Option String
  deviceInfo : Option String
  appVersion : Option String
  status : String
  createdAt : String
  deriving DecidableEq

/-- The embedded database: the five tables, plus the `AUTOINCREMENT`
counter of the `profiles` table (the id every existing row is below). -/
structure DBState where
  profiles : List ProfileRow
  interactions : List InteractionRow
  reminders : List ReminderRow
  lifeEvents : List LifeEventRow
  feedback : List FeedbackRow
  nextProfileId : Nat
  deriving DecidableEq

/-- The state of the `DatabaseService` singleton after `init`: web-fallback
flag plus the embedded database (ignored in web-fallback mode). -/
structure ServiceState where
  isWebFallback : Bool
  db : DBState
  deriving DecidableEq

/-- The argument of `createOrUpdateProfile`.  A field left at its default
models a property absent from the Javascript object: scalars are bound as
`NULL` and list fields take the `= []` destructuring default. -/
structure ProfileInput where
  id : Option Nat := none
  name : String
  age : Option Int := none
  phone : Option String := none
  email : Option String := none
  relationship : Option String := none
  job : Option String := none
  notes : Option String := none
  tags : List String := []
  photoUri : Option String := none
  parents : List String := []
  kids : List String := []
  brothers : List String := []
  sisters : List String := []
  siblings : List String := []
  pets : List String := []
  foodLikes : List String := []
  foodDislikes : List String := []
  interests : List String := []
  instagram : Option String := none
  snapchat : Option String := none
  twitter : Option String := none
  tiktok : Option String := none
  facebook : Option String := none
  birthday : Option String := none
  lastContactDate : Option String := none
  deriving DecidableEq

/-- A profile as returned to callers: the row spread with every
list-valued column replaced by the parsed array. -/
structure Profile where
  id : Nat
  name : String
  age : Option Int
  phone : Option String
  email : Option String
  relationship : Option String
  job : Option String
  notes : Option String
  tags : List String
  photoUri : Option String
  parents : List String
  kids : List String
  brothers : List String
  sisters : List String
  siblings : List String
  pets : List String
  foodLikes : List String
  foodDislikes : List String
  interests : List String
  instagram : Option String
  snapchat : Option String
  twitter : Option String
  tiktok : Option String
  facebook : Option String
  birthday : Option String
  lastContactDate : Option String
  createdAt : String
  updatedAt : String
  deriving DecidableEq

/-- `profile.col ? JSON.parse(profile.col) : []`: a falsy stored value
(`NULL` or the empty string) becomes `[]`; otherwise the text is parsed,
a parse failure being a thrown `SyntaxError` (`Except.error`). -/
def decodeListCol : Option String → Except String (List String)
  | none => .ok []
  | some t =>
    if t = "" then .ok []
    else
      match jsonParseList t with
      | some l => .ok l
      | none => .error "SyntaxError: unexpected token in JSON"

/-- The row-to-profile conversion performed by `getAllProfiles` and
`getProfileById`: spread the row and parse each list-valued column. -/
def hydrateProfile (r : ProfileRow) : Except String Profile := do
  let tags ← decodeListCol r.tags
  let parents ← decodeListCol r.parents
  let kids ← decodeListCol r.kids
  let brothers ← decodeListCol r.brothers
  let sisters ← decodeListCol r.sisters
  let siblings ← decodeListCol r.siblings
  let pets ← decodeListCol r.pets
  let foodLikes ← decodeListCol r.foodLikes
  let foodDislikes ← decodeListCol r.foodDislikes
  let interests ← decodeListCol r.interests
  return { id := r.id, name := r.name, age := r.age, phone := r.phone,
           email := r.email, relationship := r.relationship, job := r.job,
           notes := r.notes, tags := tags, photoUri := r.photoUri,
           parents := parents, kids := kids, brothers := brothers,
           sisters := sisters, siblings := siblings, pets := pets,
           foodLikes := foodLikes, foodDislikes := foodDislikes,
           interests := interests, instagram := r.instagram,
           snapchat := r.snapchat, twitter := r.twitter,
           tiktok := r.tiktok, facebook := r.facebook,
           birthday := r.birthday, lastContactDate := r.lastContactDate,
           createdAt := r.createdAt, updatedAt := r.updatedAt }

/-! ## Remote collection (`logProfileDataForCollection`)

The remote mirror step interacts with `AuthService` and a Supabase client.
Its environment is abstracted as the outcome the outside world would
produce: no session, no client, the insert reporting an error object, the
insert succeeding, or some step throwing. -/

/-- What the outside world does during `logProfileDataForCollection`. -/
inductive RemoteEnv
  | noSession
  | noClient
  | insertError (e : String)
  | insertOk
  | throws (e : String)
  deriving DecidableEq

/-- How one call to `logProfileDataForCollection` ends (only logged, never
surfaced to the caller). -/
inductive LogOutcome
  | skippedNoSession
  | skippedNoClient
  | loggedInsertError (e : String)
  | success
  | caughtException (e : String)
  deriving DecidableEq

/-- The body of the `try` block of `logProfileDataForCollection`: an
`Except.error` is a thrown exception reaching the `catch`. -/
def logAttempt : RemoteEnv → Except String LogOutcome
  | .throws e => .error e
  | .noSession => .ok .skippedNoSession
  | .noClient => .ok .skippedNoClient
  | .insertError e => .ok (.loggedInsertError e)
  | .insertOk => .ok .success

/-- `logProfileDataForCollection`: the whole body is wrapped in
`try`/`catch`, so every exception is caught and only logged. -/
def logProfileDataForCollection (env : RemoteEnv) : LogOutcome :=
  match logAttempt env with
  | .ok o => o
  | .error e => .caughtException e

/-! ## Profile writes -/

/-- The row written by the `INSERT` branch of `createOrUpdateProfile`:
every list field serialized with `JSON.stringify`, `createdAt` and
`updatedAt` both set to `now`. -/
def rowOfInput (newId : Nat) (now : String) (p : ProfileInput) : ProfileRow :=
  { id := newId, name := p.name, age := p.age, phone := p.phone,
    email := p.email, relationship := p.relationship, job := p.job,
    notes := p.notes, tags := some (jsonStringifyList p.tags),
    photoUri := p.photoUri, parents := some (jsonStringifyList p.parents),
    kids := some (jsonStringifyList p.kids),
    brothers := some (jsonStringifyList p.brothers),
    sisters := some (jsonStringifyList p.sisters),
    siblings := some (jsonStringifyList p.siblings),
    pets := some (jsonStringifyList p.pets),
    foodLikes := some (jsonStringifyList p.foodLikes),
    foodDislikes := some (jsonStringifyList p.foodDislikes),
    interests := some (jsonStringifyList p.interests),
    instagram := p.instagram, snapchat := p.snapchat, twitter := p.twitter,
    tiktok := p.tiktok, facebook := p.facebook, birthday := p.birthday,
    lastContactDate := p.lastContactDate, createdAt := now, updatedAt := now }

/-- The `UPDATE` branch of `createOrUpdateProfile` applied to one matching
row: every data column is overwritten from the input and `updatedAt` is set
to `now`; `id` and `createdAt` are not in the `SET` list. -/
def updateRow (now : String) (p : ProfileInput) (r : ProfileRow) : ProfileRow :=
  { id := r.id, name := p.name, age := p.age, phone := p.phone,
    email := p.email, relationship := p.relationship, job := p.job,
    notes := p.notes, tags := some (jsonStringifyList p.tags),
    photoUri := p.photoUri, parents := some (jsonStringifyList p.parents),
    kids := some (jsonStringifyList p.kids),
    brothers := some (jsonStringifyList p.brothers),
    sisters := some (jsonStringifyList p.sisters),
    siblings := some (jsonStringifyList p.siblings),
    pets := some (jsonStringifyList p.pets),
    foodLikes := some (jsonStringifyList p.foodLikes),
    foodDislikes := some (jsonStringifyList p.foodDislikes),
    interests := some (jsonStringifyList p.interests),
    instagram := p.instagram, snapchat := p.snapchat, twitter := p.twitter,
    tiktok := p.tiktok, facebook := p.facebook, birthday := p.birthday,
    lastContactDate := p.lastContactDate, createdAt := r.createdAt,
    updatedAt := now }

/-- The local (non-web) part of `createOrUpdateProfile`.  `if (id)` in
Javascript is false for a missing id and for `0`, in which case the
`INSERT` branch runs with the fresh `AUTOINCREMENT` id; otherwise the
`UPDATE` branch overwrites every row whose `id` matches. -/
def createOrUpdateProfileDb (now : String) (p : ProfileInput)
    (db : DBState) : DBState × Nat :=
  let ins : DBState × Nat :=
    ({ db with profiles := db.profiles ++ [rowOfInput db.nextProfileId now p],
               nextProfileId := db.nextProfileId + 1 },
     db.nextProfileId)
  match p.id with
  | none => ins
  | some i =>
    if i = 0 then ins
    else
      ({ db with profiles :=
           db.profiles.map (fun r => if r.id = i then updateRow now p r else r) },
       i)

/-- `createOrUpdateProfile`.  In web-fallback mode nothing is persisted and
`profileData.id || randomMockId` is returned (`randomMockId` models
`Math.floor(Math.random() * 1000) + 3`).  Otherwise the local write runs,
then the fire-and-forget remote collection; both branches return the
profile id together with the logged remote outcome. -/
def createOrUpdateProfile (env : RemoteEnv) (randomMockId : Nat)
    (now : String) (p : ProfileInput) (s : ServiceState) :
    (ServiceState × Nat) × LogOutcome :=
  if s.isWebFallback then
    let mockId := match p.id with
      | some i => if i = 0 then randomMockId else i
      | none => randomMockId
    ((s, mockId), logProfileDataForCollection env)
  else
    let res := createOrUpdateProfileDb now p s.db
    (({ s with db := res.1 }, res.2), logProfileDataForCollection env)

/-! ## Profile reads -/

/-- `ORDER BY updatedAt DESC` on the `TEXT` column `updatedAt`. -/
def sortByUpdatedAtDesc (rows : List ProfileRow) : List ProfileRow :=
  List.insertionSort (fun a b => b.updatedAt ≤ a.updatedAt) rows

/-- The two mock profiles served by `getAllProfiles` in web-fallback mode
(fields the mock objects omit are `null`/empty). -/
def mockProfiles : List Profile :=
  [{ id := 1, name := "John Doe", age := some 30,
     phone := some "+1234567890", email := some "john@example.com",
     relationship := some "Friend", job := some "Software Engineer",
     notes := some "Met at conference last year",
     tags := ["tech", "colleague"], photoUri := none, parents := [],
     kids := [], brothers := [], sisters := [], siblings := ["Jane Doe"],
     pets := ["Max (dog)"], foodLikes := ["pizza", "sushi"],
     foodDislikes := ["mushrooms"], interests := ["coding", "hiking"],
     instagram := none, snapchat := none, twitter := none, tiktok := none,
     facebook := none, birthday := some "1994-05-15",
     lastContactDate := some "2024-01-15",
     createdAt := "2024-01-01T00:00:00.000Z",
     updatedAt := "2024-01-15T00:00:00.000Z" },
   { id := 2, name := "Sarah Smith", age := some 28,
     phone := some "+1987654321", email := some "sarah@example.com",
     relationship := some "Colleague", job := some "Designer",
     notes := some "Great at UI/UX design",
     tags := ["design", "creative"], photoUri := none, parents := [],
     kids := [], brothers := [], sisters := [], siblings := [],
     pets := ["Luna (cat)"], foodLikes := ["pasta", "salads"],
     foodDislikes := ["spicy food"], interests := ["art", "photography"],
     instagram := none, snapchat := none, twitter := none, tiktok := none,
     facebook := none, birthday := some "1996-03-22",
     lastContactDate := some "2024-01-10",
     createdAt := "2024-01-01T00:00:00.000Z",
     updatedAt := "2024-01-10T00:00:00.000Z" }]

/-- `getAllProfiles`: the fixed mocks in web-fallback mode, otherwise
`SELECT * FROM profiles ORDER BY updatedAt DESC` with each row hydrated
(a `JSON.parse` failure rejects the whole call). -/
def getAllProfiles (s : ServiceState) : Except String (List Profile) :=
  if s.isWebFallback then .ok mockProfiles
  else (sortByUpdatedAtDesc s.db.profiles).mapM hydrateProfile

/-- `getProfileById`: in web-fallback mode a lookup in the mocks; otherwise
`SELECT * FROM profiles WHERE id = ?` (first row in table order) hydrated,
`null` when no row matches. -/
def getProfileById (pid : Nat) (s : ServiceState) :
    Except String (Option Profile) :=
  if s.isWebFallback then .ok (mockProfiles.find? (fun p => p.id = pid))
  else
    match s.db.profiles.find? (fun r => r.id = pid) with
    | none => .ok none
    | some r => (hydrateProfile r).map some

/-! ## Deletion -/

/-- `deleteProfile`: a no-op in web-fallback mode; otherwise the manual
cascade — `DELETE FROM reminders/interactions/life_events WHERE
profileId = ?` (a `NULL` `profileId` never matches `= ?`), then
`DELETE FROM profiles WHERE id = ?`.  The `feedback` table is untouched. -/
def deleteProfile (pid : Nat) (s : ServiceState) : ServiceState :=
  if s.isWebFallback then s
  else
    { s with db :=
      { s.db with
        reminders := s.db.reminders.filter (fun r => r.profileId ≠ some pid),
        interactions :=
          s.db.interactions.filter (fun r => r.profileId ≠ some pid),
        lifeEvents := s.db.lifeEvents.filter (fun r => r.profileId ≠ some pid),
        profiles := s.db.profiles.filter (fun r => r.id ≠ pid) } }

/-! ## Reminder listing -/

/-- One row of the `getAllReminders` result: `r.*` joined with the owning
profile's name and photo (`NULL` when the `LEFT JOIN` finds no profile). -/
structure JoinedReminder where
  id : Nat
  profileId : Option Nat
  title : String
  description : Option String
  type : String
  scheduledFor : String
  completed : Int
  completedAt : Option String
  notificationId : Option String
  createdAt : String
  profileName : Option String
  profilePhoto : Option String
  deriving DecidableEq

/-- `LEFT JOIN profiles p ON r.profileId = p.id` for one reminder
(profile ids are the table's primary key, hence unique). -/
def joinReminder (profiles : List ProfileRow) (r : ReminderRow) :
    JoinedReminder :=
  let base : JoinedReminder :=
    { id := r.id, profileId := r.profileId, title := r.title,
      description := r.description, type := r.type,
      scheduledFor := r.scheduledFor, completed := r.completed,
      completedAt := r.completedAt, notificationId := r.notificationId,
      createdAt := r.createdAt, profileName := none, profilePhoto := none }
  match profiles.find? (fun p => r.profileId = some p.id) with
  | some p => { base with profileName := some p.name,
                          profilePhoto := p.photoUri }
  | none => base

/-- The non-web branch of `getAllReminders`: every reminder joined with its
profile, `ORDER BY r.scheduledFor ASC` on the `TEXT` column. -/
def getAllReminders (db : DBState) : List JoinedReminder :=
  List.insertionSort (fun a b => a.scheduledFor ≤ b.scheduledFor)
    (db.reminders.map (joinReminder db.profiles))

/-! ## Notification scheduling (`NotificationService`)

`init` asks the OS for notification permission (the OS answer, including a
request that throws and is caught, is the boolean oracle
`permissionGranted`) and records success in `isInitialized`.  Times are
milliseconds since the epoch, as `Date.getTime()` returns.  The OS call
`Notifications.scheduleNotificationAsync` is modelled as succeeding and
returning the fresh identifier `freshId`. -/

/-- The instance state of `NotificationService`. -/
structure NotifState where
  isInitialized : Bool
  deriving DecidableEq

/-- `NotificationService.init`: `none` models the bare `return;` (the
Javascript `undefined`) taken when already initialized, `some b` the
explicit boolean results. -/
def notifInit (permissionGranted : Bool) (st : NotifState) :
    NotifState × Option Bool :=
  if st.isInitialized then (st, none)
  else if permissionGranted then ({ isInitialized := true }, some true)
  else (st, some false)

/-- How one call to `scheduleReminderNotification` ends. -/
inductive ScheduleOutcome
  | errorThrown (msg : String)
  | nullReturned
  | scheduled (triggerMs : Int) (notificationId : String)
  deriving DecidableEq

/-- The minimum buffer (`minimumBufferMs = 5000`). -/
def minimumBufferMs : Int := 5000

/-- `NotificationService.scheduleReminderNotification` for a reminder whose
`scheduledFor` is at `schedMs` while the current time is `nowMs`. -/
def scheduleReminderNotification (permissionGranted : Bool)
    (nowMs schedMs : Int) (freshId : String) (st : NotifState) :
    NotifState × ScheduleOutcome :=
  let initRes : NotifState × Bool :=
    if st.isInitialized then (st, true)
    else
      match notifInit permissionGranted st with
      | (st1, some b) => (st1, b)
      | (st1, none) => (st1, false)
  if initRes.2 = false then
    (initRes.1, .errorThrown "Notifications not initialized")
  else if schedMs ≤ nowMs then
    (initRes.1, .nullReturned)
  else
    let triggerMs :=
      if schedMs - nowMs < minimumBufferMs then nowMs + minimumBufferMs
      else schedMs
    (initRes.1, .scheduled triggerMs freshId)

/-! ## Schema migration (`migrateDatabase`)

The migration reads `PRAGMA table_info(profiles)` and issues one
`ALTER TABLE profiles ADD COLUMN <name> TEXT` per missing column.  The
`profiles` table is modelled generically — a list of (name, declared type)
columns and rows of cell values — so that "no existing column or row is
modified" is expressible.  When the table does not exist, the `PRAGMA`
returns no columns, the first `ALTER` throws, and the surrounding `catch`
turns the whole migration into a logged no-op. -/

/-- A column of a table: name and declared type. -/
structure Column where
  colName : String
  colType : String
  deriving DecidableEq

/-- A table: its columns and its rows (one cell per column). -/
structure TableState where
  cols : List Column
  rows : List (List (Option String))
  deriving DecidableEq

/-- `ALTER TABLE ... ADD COLUMN`: the column is appended and every
existing row gains a `NULL` cell. -/
def addColumn (t : TableState) (c : Column) : TableState :=
  { cols := t.cols ++ [c], rows := t.rows.map (fun r => r ++ [none]) }

/-- Does `PRAGMA table_info` list this column name? -/
def hasColumn (t : TableState) (n : String) : Bool :=
  t.cols.any (fun c => c.colName = n)

/-- The candidate columns of `migrateDatabase`, in source order. -/
def migrationColumns : List String :=
  ["parents", "brothers", "sisters", "instagram", "snapchat", "twitter",
   "tiktok", "facebook"]

/-- The `missingColumns` list computed from the initial `PRAGMA`. -/
def missingOf (t : TableState) : List String :=
  migrationColumns.filter (fun n => hasColumn t n = false)

/-- `migrateDatabase` on the `profiles` table (`none` = table absent). -/
def migrateDatabase : Option TableState → Option TableState
  | none => none
  | some t =>
    some ((missingOf t).foldl (fun t1 n => addColumn t1 ⟨n, "TEXT"⟩) t)

/-! ## The list-field at-rest invariant (claim C6) -/

/-- A stored list column is well formed when it is `NULL` or the
serialization of some array of strings — exactly what
`createOrUpdateProfile` writes. -/
def okCol (v : Option String) : Prop :=
  v = none ∨ ∃ l : List String, v = some (jsonStringifyList l)

/-- Every list-valued column of the row is well formed at rest. -/
def listColsOk (r : ProfileRow) : Prop :=
  okCol r.tags ∧ okCol r.parents ∧ okCol r.kids ∧ okCol r.brothers ∧
  okCol r.sisters ∧ okCol r.siblings ∧ okCol r.pets ∧ okCol r.foodLikes ∧
  okCol r.foodDislikes ∧ okCol r.interests

/-- The in-memory value of a stored list column: `NULL` (and a failed
parse) normalize to the empty array. -/
def decodeD (v : Option String) : List String :=
  match v with
  | none => []
  | some t => (jsonParseList t).getD []

/-- The total row-to-profile conversion, agreeing with `hydrateProfile` on
well-formed rows. -/
def pureHydrate (r : ProfileRow) : Profile :=
  { id := r.id, name := r.name, age := r.age, phone := r.phone,
    email := r.email, relationship := r.relationship, job := r.job,
    notes := r.notes, tags := decodeD r.tags, photoUri := r.photoUri,
    parents := decodeD r.parents, kids := decodeD r.kids,
    brothers := decodeD r.brothers, sisters := decodeD r.sisters,
    siblings := decodeD r.siblings, pets := decodeD r.pets,
    foodLikes := decodeD r.foodLikes,
    foodDislikes := decodeD r.foodDislikes,
    interests := decodeD r.interests, instagram := r.instagram,
    snapchat := r.snapchat, twitter := r.twitter, tiktok := r.tiktok,
    facebook := r.facebook, birthday := r.birthday,
    lastContactDate := r.lastContactDate, createdAt := r.createdAt,
    updatedAt := r.updatedAt }

/-! ## Sample data for concrete instantiations -/

/-- Sample rows used to instantiate the state-dependent claims. -/
def sampleRow (i : Nat) : ProfileRow :=
  { id := i, name := "P", age := none, phone := none, email := none,
    relationship := none, job := none, notes := none,
    tags := some (jsonStringifyList ["a"]), photoUri := none,
    parents := none, kids := none, brothers := none, sisters := none,
    siblings := none, pets := none, foodLikes := none,
    foodDislikes := none, interests := none, instagram := none,
    snapchat := none, twitter := none, tiktok := none, facebook := none,
    birthday := none, lastContactDate := none,
    createdAt := "2024-01-01T00:00:00.000Z",
    updatedAt := "2024-01-02T00:00:00.000Z" }

/-- A sample reminder row. -/
def sampleReminder (i : Nat) (pid : Option Nat) (sched : String) :
    ReminderRow :=
  { id := i, profileId := pid, title := "T", description := none,
    type := "general", scheduledFor := sched, completed := 0,
    completedAt := none, notificationId := none,
    createdAt := "2024-01-01T00:00:00.000Z" }

/-- A sample interaction row. -/
def sampleInteraction (i : Nat) (pid : Option Nat) : InteractionRow :=
  { id := i, profileId := pid, description := "talked at lunch",
    extractedData := none, type := "conversation", location := none,
    createdAt := "2024-01-01T00:00:00.000Z" }

/-- A sample life-event row. -/
def sampleEvent (i : Nat) (pid : Option Nat) : LifeEventRow :=
  { id := i, profileId := pid, eventType := "birthday",
    description := none, eventDate := none, importance := 1,
    createdAt := "2024-01-01T00:00:00.000Z" }

/-- A sample feedback row. -/
def sampleFeedback (i : Nat) : FeedbackRow :=
  { id := i, type := "bug", subject := "crash", message := "it crashed",
    userEmail := none, deviceInfo := none, appVersion := none,
    status := "open", createdAt := "2024-01-01T00:00:00.000Z" }

/-- A concrete non-web state with two profiles and dependents of each. -/
def c2State : ServiceState :=
  { isWebFallback := false,
    db := { profiles := [sampleRow 1, sampleRow 2],
            interactions := [sampleInteraction 1 (some 1),
                             sampleInteraction 2 (some 2)],
            reminders := [sampleReminder 1 (some 1) "2024-03-01",
                          sampleReminder 2 (some 2) "2024-03-02",
                          sampleReminder 3 none "2024-03-03"],
            lifeEvents := [sampleEvent 1 (some 1), sampleEvent 2 (some 2)],
            feedback := [sampleFeedback 1],
            nextProfileId := 3 } }

/-- A concrete non-web state with two profiles and no dependents. -/
def c7State : ServiceState :=
  { isWebFallback := false,
    db := { profiles := [sampleRow 1, sampleRow 2], interactions := [],
            reminders := [], lifeEvents := [], feedback := [],
            nextProfileId := 3 } }

/-- A concrete update input targeting profile 1. -/
def c7Input : ProfileInput :=
  { id := some 1, name := "Q", notes := some "renamed",
    tags := ["tag1"] }

/-! ## Supporting lemmas -/

theorem parseStringBody_escChars (cs rest : List Char) :
    parseStringBody (escChars cs ++ '"' :: rest) = some (cs, rest) := by
  induction cs with
  | nil =>
    show parseStringBody ('"' :: rest) = some ([], rest)
    rw [parseStringBody.eq_def]
    dsimp only
    rw [if_neg (by decide), if_pos rfl]
  | cons c cs ih =>
    by_cases h : c = '"' ∨ c = '\\'
    · have he : escChars (c :: cs) = '\\' :: c :: escChars cs := by
        simp [escChars, h]
      rw [he, List.cons_append, List.cons_append, parseStringBody.eq_def]
      dsimp only
      rw [if_pos rfl, ih]
    · push_neg at h
      have he : escChars (c :: cs) = c :: escChars cs := by
        simp [escChars, h.1, h.2]
      rw [he, List.cons_append, parseStringBody.eq_def]
      dsimp only
      rw [if_neg h.2, if_neg h.1, ih]

theorem parseJsonString_strChars (s : String) (rest : List Char) :
    parseJsonString (strChars s ++ rest) = some (s.data, rest) := by
  have h : strChars s ++ rest = '"' :: (escChars s.data ++ ('"' :: rest)) := by
    simp [strChars]
  rw [h, parseJsonString.eq_def]
  simp [parseStringBody_escChars]

theorem parseElemsLoop_elemsChars (xs : List String) :
    ∀ (x : String) (fuel : Nat) (rest : List Char), xs.length < fuel →
      parseElemsLoop fuel (elemsChars (x :: xs) ++ ']' :: rest)
        = some (x :: xs, rest) := by
  induction xs with
  | nil =>
    intro x fuel rest hf
    match fuel, hf with
    | f + 1, _ =>
      simp [elemsChars, parseElemsLoop, parseJsonString_strChars]
  | cons y ys ih =>
    intro x fuel rest hf
    match fuel, hf with
    | f + 1, hf =>
      have h1 : elemsChars (x :: y :: ys) ++ ']' :: rest
          = strChars x ++ (',' :: (elemsChars (y :: ys) ++ ']' :: rest)) := by
        simp [elemsChars]
      rw [h1]
      have h2 := ih y f rest (by simpa using Nat.lt_of_succ_lt_succ hf)
      simp [parseElemsLoop, parseJsonString_strChars, h2]

theorem length_lt_elemsChars (xs : List String) :
    ∀ x : String, xs.length < (elemsChars (x :: xs)).length := by
  induction xs with
  | nil => intro x; simp [elemsChars, strChars]
  | cons y ys ih =>
    intro x
    have := ih y
    simp only [elemsChars, List.length_append, List.length_cons]
    simp only [List.length_cons] at this
    omega

/-- For every list of strings, parsing its serialization recovers it: the
round trip underlying the at-rest representation of list-valued profile
fields. -/
theorem jsonParseList_stringify (xs : List String) :
    jsonParseList (jsonStringifyList xs) = some xs := by
  match xs with
  | [] => rfl
  | x :: xs =>
    obtain ⟨t, ht⟩ : ∃ t, elemsChars (x :: xs) = '"' :: t := by
      match xs with
      | [] => exact ⟨_, rfl⟩
      | y :: ys => exact ⟨_, rfl⟩
    have hne : elemsChars (x :: xs) ++ [']'] ≠ [']'] := by
      rw [ht]; intro hcontra; simp at hcontra
    have hparse := parseElemsLoop_elemsChars xs x
      ((elemsChars (x :: xs) ++ [']']).length + 1) []
      (by have := length_lt_elemsChars xs x; simp [List.length_append]; omega)
    show jsonParseChars ('[' :: (elemsChars (x :: xs) ++ [']'])) = some (x :: xs)
    rw [jsonParseChars.eq_def]
    dsimp only
    rw [if_pos rfl, if_neg hne]
    have : elemsChars (x :: xs) ++ ']' :: [] = elemsChars (x :: xs) ++ [']'] := rfl
    rw [this] at hparse
    rw [hparse]


theorem jsonStringifyList_ne_empty (l : List String) :
    jsonStringifyList l ≠ "" := by
  simp [jsonStringifyList, String.ext_iff]

theorem decodeListCol_stringify (l : List String) :
    decodeListCol (some (jsonStringifyList l)) = .ok l := by
  rw [decodeListCol]
  rw [if_neg (jsonStringifyList_ne_empty l), jsonParseList_stringify]

theorem foldl_addColumn (ns : List String) (t : TableState) :
    ns.foldl (fun t1 n => addColumn t1 ⟨n, "TEXT"⟩) t
      = { cols := t.cols ++ ns.map (fun n => ⟨n, "TEXT"⟩),
          rows := t.rows.map (fun r => r ++ List.replicate ns.length none) } := by
  induction ns generalizing t with
  | nil => simp
  | cons n ns ih =>
    rw [List.foldl_cons, ih]
    simp only [addColumn, List.map_cons, List.length_cons]
    congr 1
    · simp
    · simp [List.map_map, Function.comp_def, List.replicate_succ,
        List.append_assoc]

/-! ## C3: notification scheduling fails exactly on missing permission or a
past time -/

/-- C3: `scheduleReminderNotification` fails exactly when notification
permission is not granted or the reminder time is not strictly in the
future; in those cases nothing is scheduled (an error is thrown for missing
permission, `null` returned for a past time), and in every other case a
notification is scheduled and its identifier is returned.  The hypothesis
records the `init` invariant: `isInitialized` is only ever set after a
granted permission. -/
theorem spec_C3 (perm : Bool) (nowMs schedMs : Int) (freshId : String)
    (st : NotifState) (hinv : st.isInitialized = true → perm = true) :
    ((perm = false ∨ schedMs ≤ nowMs) ↔
      ∀ t i, (scheduleReminderNotification perm nowMs schedMs freshId st).2
        ≠ .scheduled t i) ∧
    (perm = false →
      (scheduleReminderNotification perm nowMs schedMs freshId st).2
        = .errorThrown "Notifications not initialized") ∧
    (perm = true → schedMs ≤ nowMs →
      (scheduleReminderNotification perm nowMs schedMs freshId st).2
        = .nullReturned) ∧
    (perm = true → nowMs < schedMs →
      ∃ t, (scheduleReminderNotification perm nowMs schedMs freshId st).2
        = .scheduled t freshId) := by
  cases hst : st.isInitialized with
  | true =>
    have hp := hinv hst
    subst hp
    by_cases hle : schedMs ≤ nowMs
    · simp [scheduleReminderNotification, hst, hle]
    · simp [scheduleReminderNotification, hst, hle]
  | false =>
    cases perm with
    | false =>
      simp [scheduleReminderNotification, notifInit, hst]
    | true =>
      by_cases hle : schedMs ≤ nowMs
      · simp [scheduleReminderNotification, notifInit, hst, hle]
      · simp [scheduleReminderNotification, notifInit, hst, hle]

/-- Witness for C3 at concrete inputs. -/
theorem spec_C3_witness :
    ((false = false ∨ (10 : Int) ≤ 0) ↔
      ∀ t i, (scheduleReminderNotification false 0 10 "n1" ⟨false⟩).2
        ≠ .scheduled t i) ∧
    (false = false →
      (scheduleReminderNotification false 0 10 "n1" ⟨false⟩).2
        = .errorThrown "Notifications not initialized") ∧
    (false = true → (10 : Int) ≤ 0 →
      (scheduleReminderNotification false 0 10 "n1" ⟨false⟩).2
        = .nullReturned) ∧
    (false = true → (0 : Int) < 10 →
      ∃ t, (scheduleReminderNotification false 0 10 "n1" ⟨false⟩).2
        = .scheduled t "n1") :=
  spec_C3 false 0 10 "n1" ⟨false⟩ (by simp)

/-! ## C4: the five-second minimum buffer -/

/-- C4: for a strictly-future reminder closer than 5000 ms, the trigger is
pushed to exactly `now + 5000` ms; at 5000 ms or more away, the given time
is the trigger unchanged.  The hypothesis puts the call on the path where
scheduling happens (permission granted or service already initialized). -/
theorem spec_C4 (perm : Bool) (nowMs schedMs : Int) (freshId : String)
    (st : NotifState) (hinit : st.isInitialized = true ∨ perm = true)
    (hfut : nowMs < schedMs) :
    (schedMs - nowMs < 5000 →
      (scheduleReminderNotification perm nowMs schedMs freshId st).2
        = .scheduled (nowMs + 5000) freshId) ∧
    (5000 ≤ schedMs - nowMs →
      (scheduleReminderNotification perm nowMs schedMs freshId st).2
        = .scheduled schedMs freshId) := by
  have hle : ¬ schedMs ≤ nowMs := by omega
  rcases hinit with hst | hp
  · constructor
    · intro hbuf
      simp [scheduleReminderNotification, hst, hle, minimumBufferMs, hbuf]
    · intro hbuf
      simp [scheduleReminderNotification, hst, hle, minimumBufferMs]
      omega
  · cases hst : st.isInitialized with
    | true =>
      constructor
      · intro hbuf
        simp [scheduleReminderNotification, hst, hle, minimumBufferMs, hbuf]
      · intro hbuf
        simp [scheduleReminderNotification, hst, hle, minimumBufferMs]
        omega
    | false =>
      subst hp
      constructor
      · intro hbuf
        simp [scheduleReminderNotification, notifInit, hst, hle,
          minimumBufferMs, hbuf]
      · intro hbuf
        simp [scheduleReminderNotification, notifInit, hst, hle,
          minimumBufferMs]
        omega

/-- Witness for C4 at concrete inputs: 3000 ms ahead is buffered to
now + 5000; 8000 ms ahead is used unchanged. -/
theorem spec_C4_witness :
    (((1003000 : Int) - 1000000 < 5000 →
      (scheduleReminderNotification true 1000000 1003000 "n2" ⟨false⟩).2
        = .scheduled (1000000 + 5000) "n2") ∧
    ((5000 : Int) ≤ 1003000 - 1000000 →
      (scheduleReminderNotification true 1000000 1003000 "n2" ⟨false⟩).2
        = .scheduled 1003000 "n2")) ∧
    (((1008000 : Int) - 1000000 < 5000 →
      (scheduleReminderNotification true 1000000 1008000 "n3" ⟨false⟩).2
        = .scheduled (1000000 + 5000) "n3") ∧
    ((5000 : Int) ≤ 1008000 - 1000000 →
      (scheduleReminderNotification true 1000000 1008000 "n3" ⟨false⟩).2
        = .scheduled 1008000 "n3")) :=
  ⟨spec_C4 true 1000000 1003000 "n2" ⟨false⟩ (Or.inr rfl) (by norm_num),
   spec_C4 true 1000000 1008000 "n3" ⟨false⟩ (Or.inr rfl) (by norm_num)⟩

/-! ## C8: the migration is additive and idempotent -/

/-- C8: `migrateDatabase` adds exactly the missing candidate columns, each
as `TEXT`; existing columns keep their place and every existing row keeps
the value of every existing column (gaining only `NULL` cells for the new
columns); a second run adds nothing; and with no `profiles` table it
completes as a no-op. -/
theorem spec_C8 :
    migrateDatabase none = none ∧
    ∀ t : TableState,
      migrateDatabase (some t)
        = some { cols := t.cols ++ (missingOf t).map (fun n => ⟨n, "TEXT"⟩),
                 rows := t.rows.map
                   (fun r => r ++ List.replicate (missingOf t).length none) } ∧
      (∀ n, n ∈ missingOf t ↔ (n ∈ migrationColumns ∧ hasColumn t n = false)) ∧
      migrateDatabase (migrateDatabase (some t)) = migrateDatabase (some t) := by
  refine ⟨rfl, fun t => ⟨?_, ?_, ?_⟩⟩
  · rw [migrateDatabase, foldl_addColumn]
  · intro n
    simp [missingOf, List.mem_filter]
  · have h1 : migrateDatabase (some t)
        = some { cols := t.cols ++ (missingOf t).map (fun n => ⟨n, "TEXT"⟩),
                 rows := t.rows.map
                   (fun r => r ++ List.replicate (missingOf t).length none) } := by
      rw [migrateDatabase, foldl_addColumn]
    set t1 : TableState :=
      { cols := t.cols ++ (missingOf t).map (fun n => ⟨n, "TEXT"⟩),
        rows := t.rows.map
          (fun r => r ++ List.replicate (missingOf t).length none) } with ht1
    rw [h1]
    have hall : ∀ n ∈ migrationColumns, hasColumn t1 n = true := by
      intro n hn
      cases hc : hasColumn t n with
      | true =>
        rcases List.any_eq_true.mp hc with ⟨c, hcmem, hcn⟩
        exact List.any_eq_true.mpr ⟨c, by simp [ht1, List.mem_append, hcmem],
          hcn⟩
      | false =>
        have hmiss : n ∈ missingOf t := by
          simp [missingOf, List.mem_filter, hn, hc]
        refine List.any_eq_true.mpr ⟨⟨n, "TEXT"⟩, ?_, by simp⟩
        simp only [ht1, List.mem_append]
        exact Or.inr (List.mem_map.mpr ⟨n, hmiss, rfl⟩)
    have hm1 : missingOf t1 = [] := by
      refine List.filter_eq_nil_iff.mpr ?_
      intro n hn
      simp [hall n hn]
    rw [migrateDatabase, hm1]
    simp

/-! ## C5: remote-collection failures never block the local save -/

/-- C5: every exception inside `logProfileDataForCollection` is caught (the
function only logs it), and the state and profile id produced by
`createOrUpdateProfile` are the same whatever the remote environment does —
the local write completes and the local id is returned. -/
theorem spec_C5 (env : RemoteEnv) (rnd : Nat) (now : String)
    (p : ProfileInput) (s : ServiceState) :
    (∀ e, logAttempt env = .error e →
      logProfileDataForCollection env = .caughtException e) ∧
    (createOrUpdateProfile env rnd now p s).1
      = (createOrUpdateProfile .insertOk rnd now p s).1 := by
  constructor
  · intro e he
    rw [logProfileDataForCollection, he]
  · rw [createOrUpdateProfile, createOrUpdateProfile]
    split <;> rfl

/-- Witness for C5: a throwing remote environment at a concrete save. -/
theorem spec_C5_witness :
    (∀ e, logAttempt (.throws "network down") = .error e →
      logProfileDataForCollection (.throws "network down")
        = .caughtException e) ∧
    (createOrUpdateProfile (.throws "network down") 7 "2024-02-01" { name := "Ada" }
        ⟨false, ⟨[], [], [], [], [], 1⟩⟩).1
      = (createOrUpdateProfile .insertOk 7 "2024-02-01" { name := "Ada" }
        ⟨false, ⟨[], [], [], [], [], 1⟩⟩).1 :=
  spec_C5 (.throws "network down") 7 "2024-02-01" { name := "Ada" }
    ⟨false, ⟨[], [], [], [], [], 1⟩⟩

/-! ## C9: web-fallback mode serves fixed mocks and persists nothing -/

/-- C9: in web-fallback mode `getAllProfiles` returns the fixed two mock
profiles (ids 1 and 2) whatever the state holds, `createOrUpdateProfile`
leaves the state untouched and returns the generated mock id, and
`getProfileById` is `null` for every id other than 1 and 2 — in particular
for the fresh generated id, which is at least 3. -/
theorem spec_C9 (s : ServiceState) (env : RemoteEnv) (rnd : Nat)
    (now : String) (p : ProfileInput) (hweb : s.isWebFallback = true)
    (hrnd : 3 ≤ rnd) (hpid : p.id = none) :
    getAllProfiles s = .ok mockProfiles ∧
    mockProfiles.map (fun q => q.id) = [1, 2] ∧
    (createOrUpdateProfile env rnd now p s).1.1 = s ∧
    (createOrUpdateProfile env rnd now p s).1.2 = rnd ∧
    (∀ j : Nat, j ≠ 1 → j ≠ 2 → getProfileById j s = .ok none) ∧
    getProfileById rnd s = .ok none := by
  have hfind : ∀ j : Nat, j ≠ 1 → j ≠ 2 →
      mockProfiles.find? (fun q => q.id = j) = none := by
    intro j h1 h2
    rw [List.find?_eq_none]
    intro q hq
    simp only [mockProfiles, List.mem_cons, List.not_mem_nil, or_false] at hq
    rcases hq with rfl | rfl
    · simp [Ne.symm h1]
    · simp [Ne.symm h2]
  refine ⟨?_, rfl, ?_, ?_, ?_, ?_⟩
  · rw [getAllProfiles, if_pos hweb]
  · rw [createOrUpdateProfile, if_pos hweb]
  · rw [createOrUpdateProfile, if_pos hweb]
    simp [hpid]
  · intro j h1 h2
    rw [getProfileById, if_pos hweb, hfind j h1 h2]
  · rw [getProfileById, if_pos hweb,
      hfind rnd (by omega) (by omega)]

/-- Witness for C9 at a concrete web-fallback state. -/
theorem spec_C9_witness :
    (getAllProfiles ⟨true, ⟨[], [], [], [], [], 1⟩⟩ = .ok mockProfiles ∧
    mockProfiles.map (fun q => q.id) = [1, 2] ∧
    (createOrUpdateProfile .noSession 17 "2024-02-01" { name := "Ada" }
        ⟨true, ⟨[], [], [], [], [], 1⟩⟩).1.1 = ⟨true, ⟨[], [], [], [], [], 1⟩⟩ ∧
    (createOrUpdateProfile .noSession 17 "2024-02-01" { name := "Ada" }
        ⟨true, ⟨[], [], [], [], [], 1⟩⟩).1.2 = 17 ∧
    (∀ j : Nat, j ≠ 1 → j ≠ 2 →
      getProfileById j ⟨true, ⟨[], [], [], [], [], 1⟩⟩ = .ok none) ∧
    getProfileById 17 ⟨true, ⟨[], [], [], [], [], 1⟩⟩ = .ok none) :=
  spec_C9 ⟨true, ⟨[], [], [], [], [], 1⟩⟩ .noSession 17 "2024-02-01"
    { name := "Ada" } rfl (by norm_num) rfl

/-! ## C2: deleting a profile cascades to its dependents and nothing else -/

/-- C2: after `deleteProfile pid`, the profile can no longer be fetched, no
reminder, interaction or life event with that `profileId` remains, the
`feedback` table is untouched, and every row belonging to another profile
(or to no profile) survives. -/
theorem spec_C2 (s : ServiceState) (pid : Nat)
    (hweb : s.isWebFallback = false) :
    getProfileById pid (deleteProfile pid s) = .ok none ∧
    (∀ r ∈ (deleteProfile pid s).db.reminders, r.profileId ≠ some pid) ∧
    (∀ r ∈ (deleteProfile pid s).db.interactions, r.profileId ≠ some pid) ∧
    (∀ r ∈ (deleteProfile pid s).db.lifeEvents, r.profileId ≠ some pid) ∧
    (∀ q ∈ (deleteProfile pid s).db.profiles, q.id ≠ pid) ∧
    (deleteProfile pid s).db.feedback = s.db.feedback ∧
    (∀ q ∈ s.db.profiles, q.id ≠ pid →
      q ∈ (deleteProfile pid s).db.profiles) ∧
    (∀ r ∈ s.db.reminders, r.profileId ≠ some pid →
      r ∈ (deleteProfile pid s).db.reminders) ∧
    (∀ r ∈ s.db.interactions, r.profileId ≠ some pid →
      r ∈ (deleteProfile pid s).db.interactions) ∧
    (∀ r ∈ s.db.lifeEvents, r.profileId ≠ some pid →
      r ∈ (deleteProfile pid s).db.lifeEvents) := by
  rw [deleteProfile, if_neg (by simp [hweb])]
  refine ⟨?_, ?_, ?_, ?_, ?_, rfl, ?_, ?_, ?_, ?_⟩
  · rw [getProfileById, if_neg (by simp [hweb])]
    have : (s.db.profiles.filter (fun r => r.id ≠ pid)).find?
        (fun r => r.id = pid) = none := by
      rw [List.find?_eq_none]
      intro q hq
      have := (List.mem_filter.mp hq).2
      simpa using this
    simp only []
    rw [this]
  · intro r hr; simpa using (List.mem_filter.mp hr).2
  · intro r hr; simpa using (List.mem_filter.mp hr).2
  · intro r hr; simpa using (List.mem_filter.mp hr).2
  · intro q hq; simpa using (List.mem_filter.mp hq).2
  · intro q hq hne; exact List.mem_filter.mpr ⟨hq, by simpa using hne⟩
  · intro r hr hne; exact List.mem_filter.mpr ⟨hr, by simpa using hne⟩
  · intro r hr hne; exact List.mem_filter.mpr ⟨hr, by simpa using hne⟩
  · intro r hr hne; exact List.mem_filter.mpr ⟨hr, by simpa using hne⟩

/-! ## C1: a saved profile is read back with identical field values -/

/-- Hydrating the row written by the `INSERT` branch recovers the input:
scalars pass through and every list field survives the
stringify/parse round trip. -/
theorem hydrateProfile_rowOfInput (nid : Nat) (now : String)
    (p : ProfileInput) :
    hydrateProfile (rowOfInput nid now p) = .ok
      { id := nid, name := p.name, age := p.age, phone := p.phone,
        email := p.email, relationship := p.relationship, job := p.job,
        notes := p.notes, tags := p.tags, photoUri := p.photoUri,
        parents := p.parents, kids := p.kids, brothers := p.brothers,
        sisters := p.sisters, siblings := p.siblings, pets := p.pets,
        foodLikes := p.foodLikes, foodDislikes := p.foodDislikes,
        interests := p.interests, instagram := p.instagram,
        snapchat := p.snapchat, twitter := p.twitter, tiktok := p.tiktok,
        facebook := p.facebook, birthday := p.birthday,
        lastContactDate := p.lastContactDate, createdAt := now,
        updatedAt := now } := by
  simp only [hydrateProfile, rowOfInput, decodeListCol_stringify]
  rfl

/-- Hydrating the row produced by the `UPDATE` branch recovers the input
on every data field, keeping the row's `id` and `createdAt`. -/
theorem hydrateProfile_updateRow (now : String) (p : ProfileInput)
    (r : ProfileRow) :
    hydrateProfile (updateRow now p r) = .ok
      { id := r.id, name := p.name, age := p.age, phone := p.phone,
        email := p.email, relationship := p.relationship, job := p.job,
        notes := p.notes, tags := p.tags, photoUri := p.photoUri,
        parents := p.parents, kids := p.kids, brothers := p.brothers,
        sisters := p.sisters, siblings := p.siblings, pets := p.pets,
        foodLikes := p.foodLikes, foodDislikes := p.foodDislikes,
        interests := p.interests, instagram := p.instagram,
        snapchat := p.snapchat, twitter := p.twitter, tiktok := p.tiktok,
        facebook := p.facebook, birthday := p.birthday,
        lastContactDate := p.lastContactDate, createdAt := r.createdAt,
        updatedAt := now } := by
  simp only [hydrateProfile, updateRow, decodeListCol_stringify]
  rfl

theorem find?_map_update (i : Nat) (now : String) (p : ProfileInput) :
    ∀ (l : List ProfileRow) (r0 : ProfileRow),
      l.find? (fun r => r.id = i) = some r0 →
      (l.map (fun r => if r.id = i then updateRow now p r else r)).find?
        (fun r => r.id = i) = some (updateRow now p r0) := by
  intro l
  induction l with
  | nil => intro r0 h; simp at h
  | cons a l ih =>
    intro r0 h
    rw [List.find?_cons] at h
    by_cases ha : a.id = i
    · simp only [show decide (a.id = i) = true by simpa using ha] at h
      simp only [Option.some.injEq] at h
      subst h
      simp only [List.map_cons, if_pos ha]
      rw [List.find?_cons]
      simp [updateRow, ha]
    · simp only [show decide (a.id = i) = false by simpa using ha] at h
      simp only [List.map_cons, if_neg ha]
      rw [List.find?_cons]
      simp only [show decide (a.id = i) = false by simpa using ha]
      exact ih r0 h

/-- C1: `createOrUpdateProfile` followed by `getProfileById` on the
returned id (outside web-fallback mode) yields a profile agreeing with the
input on every scalar field, and on every list-valued field after the JSON
serialize/deserialize round trip.  The hypotheses record the database
invariants the save relies on: the `AUTOINCREMENT` counter is above every
existing id, and an update targets an existing (nonzero) id. -/
theorem spec_C1 (env : RemoteEnv) (rnd : Nat) (now : String)
    (p : ProfileInput) (s : ServiceState)
    (hweb : s.isWebFallback = false)
    (hfresh : ∀ r ∈ s.db.profiles, r.id < s.db.nextProfileId)
    (hupd : ∀ i, p.id = some i → i ≠ 0 ∧ ∃ r ∈ s.db.profiles, r.id = i) :
    ∃ q : Profile,
      getProfileById ((createOrUpdateProfile env rnd now p s).1.2)
        ((createOrUpdateProfile env rnd now p s).1.1) = .ok (some q) ∧
      q.name = p.name ∧ q.age = p.age ∧ q.phone = p.phone ∧
      q.email = p.email ∧ q.relationship = p.relationship ∧
      q.job = p.job ∧ q.notes = p.notes ∧ q.photoUri = p.photoUri ∧
      q.instagram = p.instagram ∧ q.snapchat = p.snapchat ∧
      q.twitter = p.twitter ∧ q.tiktok = p.tiktok ∧
      q.facebook = p.facebook ∧ q.birthday = p.birthday ∧
      q.lastContactDate = p.lastContactDate ∧
      q.tags = p.tags ∧ q.parents = p.parents ∧ q.kids = p.kids ∧
      q.brothers = p.brothers ∧ q.sisters = p.sisters ∧
      q.siblings = p.siblings ∧ q.pets = p.pets ∧
      q.foodLikes = p.foodLikes ∧ q.foodDislikes = p.foodDislikes ∧
      q.interests = p.interests := by
  have hsvc : (createOrUpdateProfile env rnd now p s).1
      = ({ s with db := (createOrUpdateProfileDb now p s.db).1 },
         (createOrUpdateProfileDb now p s.db).2) := by
    rw [createOrUpdateProfile, if_neg (by simp [hweb])]
  rcases hcase : p.id with _ | i
  · -- INSERT branch
    have hdb : createOrUpdateProfileDb now p s.db
        = ({ s.db with
              profiles := s.db.profiles
                ++ [rowOfInput s.db.nextProfileId now p],
              nextProfileId := s.db.nextProfileId + 1 },
           s.db.nextProfileId) := by
      rw [createOrUpdateProfileDb, hcase]
    rw [hsvc, hdb]
    dsimp only
    have hnone : s.db.profiles.find?
        (fun r => r.id = s.db.nextProfileId) = none := by
      rw [List.find?_eq_none]
      intro r hr
      have := hfresh r hr
      simp
      omega
    have hfind : (s.db.profiles ++
        [rowOfInput s.db.nextProfileId now p]).find?
          (fun r => r.id = s.db.nextProfileId)
        = some (rowOfInput s.db.nextProfileId now p) := by
      rw [List.find?_append, hnone, Option.none_or, List.find?_cons]
      simp [rowOfInput]
    refine ⟨{
        id := s.db.nextProfileId, name := p.name, age := p.age,
        phone := p.phone, email := p.email, relationship := p.relationship,
        job := p.job, notes := p.notes, tags := p.tags,
        photoUri := p.photoUri, parents := p.parents, kids := p.kids,
        brothers := p.brothers, sisters := p.sisters,
        siblings := p.siblings, pets := p.pets, foodLikes := p.foodLikes,
        foodDislikes := p.foodDislikes, interests := p.interests,
        instagram := p.instagram, snapchat := p.snapchat,
        twitter := p.twitter, tiktok := p.tiktok, facebook := p.facebook,
        birthday := p.birthday, lastContactDate := p.lastContactDate,
        createdAt := now, updatedAt := now }, ?_, rfl, rfl, rfl, rfl, rfl,
      rfl, rfl, rfl, rfl, rfl, rfl, rfl, rfl, rfl, rfl, rfl, rfl, rfl,
      rfl, rfl, rfl, rfl, rfl, rfl, rfl⟩
    rw [getProfileById, if_neg (by simp [hweb])]
    dsimp only
    rw [hfind]
    show Except.map some
      (hydrateProfile (rowOfInput s.db.nextProfileId now p)) = _
    rw [hydrateProfile_rowOfInput]
    rfl
  · -- UPDATE branch
    obtain ⟨hne0, r1, hr1, hrid⟩ := hupd i hcase
    have hdb : createOrUpdateProfileDb now p s.db
        = ({ s.db with
              profiles := s.db.profiles.map
                (fun r => if r.id = i then updateRow now p r else r) },
           i) := by
      rw [createOrUpdateProfileDb, hcase]
      dsimp only
      rw [if_neg hne0]
    rw [hsvc, hdb]
    dsimp only
    have hsome : (s.db.profiles.find? (fun r => r.id = i)).isSome := by
      rw [List.find?_isSome]
      exact ⟨r1, hr1, by simpa using hrid⟩
    obtain ⟨r0, hr0⟩ := Option.isSome_iff_exists.mp hsome
    refine ⟨{
        id := r0.id, name := p.name, age := p.age,
        phone := p.phone, email := p.email, relationship := p.relationship,
        job := p.job, notes := p.notes, tags := p.tags,
        photoUri := p.photoUri, parents := p.parents, kids := p.kids,
        brothers := p.brothers, sisters := p.sisters,
        siblings := p.siblings, pets := p.pets, foodLikes := p.foodLikes,
        foodDislikes := p.foodDislikes, interests := p.interests,
        instagram := p.instagram, snapchat := p.snapchat,
        twitter := p.twitter, tiktok := p.tiktok, facebook := p.facebook,
        birthday := p.birthday, lastContactDate := p.lastContactDate,
        createdAt := r0.createdAt, updatedAt := now }, ?_, rfl, rfl, rfl,
      rfl, rfl, rfl, rfl, rfl, rfl, rfl, rfl, rfl, rfl, rfl, rfl, rfl,
      rfl, rfl, rfl, rfl, rfl, rfl, rfl, rfl, rfl⟩
    rw [getProfileById, if_neg (by simp [hweb])]
    dsimp only
    rw [find?_map_update i now p s.db.profiles r0 hr0]
    show Except.map some (hydrateProfile (updateRow now p r0)) = _
    rw [hydrateProfile_updateRow]
    rfl

/-- Witness for C1: a concrete save (insert path) on an empty database. -/
theorem spec_C1_witness :
    ∃ q : Profile,
      getProfileById
        ((createOrUpdateProfile .noSession 7 "2024-02-01T00:00:00.000Z"
          { name := "Ada", tags := ["friend", "chess"],
            pets := ["Rex (dog)"] }
          ⟨false, ⟨[], [], [], [], [], 1⟩⟩).1.2)
        ((createOrUpdateProfile .noSession 7 "2024-02-01T00:00:00.000Z"
          { name := "Ada", tags := ["friend", "chess"],
            pets := ["Rex (dog)"] }
          ⟨false, ⟨[], [], [], [], [], 1⟩⟩).1.1) = .ok (some q) ∧
      q.name = "Ada" ∧ q.age = none ∧ q.phone = none ∧
      q.email = none ∧ q.relationship = none ∧
      q.job = none ∧ q.notes = none ∧ q.photoUri = none ∧
      q.instagram = none ∧ q.snapchat = none ∧
      q.twitter = none ∧ q.tiktok = none ∧
      q.facebook = none ∧ q.birthday = none ∧
      q.lastContactDate = none ∧
      q.tags = ["friend", "chess"] ∧ q.parents = [] ∧ q.kids = [] ∧
      q.brothers = [] ∧ q.sisters = [] ∧
      q.siblings = [] ∧ q.pets = ["Rex (dog)"] ∧
      q.foodLikes = [] ∧ q.foodDislikes = [] ∧
      q.interests = [] :=
  spec_C1 .noSession 7 "2024-02-01T00:00:00.000Z"
    { name := "Ada", tags := ["friend", "chess"], pets := ["Rex (dog)"] }
    ⟨false, ⟨[], [], [], [], [], 1⟩⟩ rfl (by simp) (by simp)

/-! ## C7: the update path is a full-row overwrite with frame -/

/-- C7: calling `createOrUpdateProfile` with an existing nonzero id returns
that id, leaves every other profile row and every other table unchanged,
and replaces each row carrying the id by the overwrite `updateRow now p r`,
which keeps the row's `id` and `createdAt`, stamps `updatedAt := now`, and
takes every data column from the input (absent scalars becoming `NULL` and
absent lists the serialized empty list). -/
theorem spec_C7 (env : RemoteEnv) (rnd : Nat) (now : String)
    (p : ProfileInput) (s : ServiceState) (i : Nat)
    (hweb : s.isWebFallback = false) (hid : p.id = some i) (hne0 : i ≠ 0)
    (hex : ∃ r ∈ s.db.profiles, r.id = i) :
    (createOrUpdateProfile env rnd now p s).1.2 = i ∧
    (∀ r ∈ s.db.profiles, r.id ≠ i →
      r ∈ (createOrUpdateProfile env rnd now p s).1.1.db.profiles) ∧
    (∀ r ∈ (createOrUpdateProfile env rnd now p s).1.1.db.profiles,
      r.id ≠ i → r ∈ s.db.profiles) ∧
    (∀ r ∈ s.db.profiles, r.id = i →
      updateRow now p r
          ∈ (createOrUpdateProfile env rnd now p s).1.1.db.profiles ∧
      (updateRow now p r).id = r.id ∧
      (updateRow now p r).createdAt = r.createdAt ∧
      (updateRow now p r).updatedAt = now ∧
      (updateRow now p r).name = p.name ∧
      (updateRow now p r).age = p.age ∧
      (updateRow now p r).phone = p.phone ∧
      (updateRow now p r).email = p.email ∧
      (updateRow now p r).relationship = p.relationship ∧
      (updateRow now p r).job = p.job ∧
      (updateRow now p r).notes = p.notes ∧
      (updateRow now p r).photoUri = p.photoUri ∧
      (updateRow now p r).instagram = p.instagram ∧
      (updateRow now p r).snapchat = p.snapchat ∧
      (updateRow now p r).twitter = p.twitter ∧
      (updateRow now p r).tiktok = p.tiktok ∧
      (updateRow now p r).facebook = p.facebook ∧
      (updateRow now p r).birthday = p.birthday ∧
      (updateRow now p r).lastContactDate = p.lastContactDate ∧
      (updateRow now p r).tags = some (jsonStringifyList p.tags) ∧
      (updateRow now p r).parents = some (jsonStringifyList p.parents) ∧
      (updateRow now p r).kids = some (jsonStringifyList p.kids) ∧
      (updateRow now p r).brothers = some (jsonStringifyList p.brothers) ∧
      (updateRow now p r).sisters = some (jsonStringifyList p.sisters) ∧
      (updateRow now p r).siblings = some (jsonStringifyList p.siblings) ∧
      (updateRow now p r).pets = some (jsonStringifyList p.pets) ∧
      (updateRow now p r).foodLikes = some (jsonStringifyList p.foodLikes) ∧
      (updateRow now p r).foodDislikes
          = some (jsonStringifyList p.foodDislikes) ∧
      (updateRow now p r).interests = some (jsonStringifyList p.interests)) ∧
    (createOrUpdateProfile env rnd now p s).1.1.db.interactions
        = s.db.interactions ∧
    (createOrUpdateProfile env rnd now p s).1.1.db.reminders
        = s.db.reminders ∧
    (createOrUpdateProfile env rnd now p s).1.1.db.lifeEvents
        = s.db.lifeEvents ∧
    (createOrUpdateProfile env rnd now p s).1.1.db.feedback
        = s.db.feedback := by
  have hkey : (createOrUpdateProfile env rnd now p s).1
      = ({ s with
            db := { s.db with
              profiles := s.db.profiles.map
                (fun r => if r.id = i then updateRow now p r else r) } },
          i) := by
    rw [createOrUpdateProfile, if_neg (by simp [hweb]),
      createOrUpdateProfileDb, hid]
    dsimp only
    rw [if_neg hne0]
  rw [hkey]
  dsimp only
  refine ⟨rfl, ?_, ?_, ?_, rfl, rfl, rfl, rfl⟩
  · intro r hr hne
    exact List.mem_map.mpr ⟨r, hr, by rw [if_neg hne]⟩
  · intro r hr hne
    rcases List.mem_map.mp hr with ⟨r0, hr0, heq⟩
    by_cases h0 : r0.id = i
    · rw [if_pos h0] at heq
      exfalso
      apply hne
      rw [← heq]
      exact h0 ▸ rfl
    · rw [if_neg h0] at heq
      exact heq ▸ hr0
  · intro r hr hri
    refine ⟨List.mem_map.mpr ⟨r, hr, by rw [if_pos hri]⟩, rfl, rfl, rfl,
      rfl, rfl, rfl, rfl, rfl, rfl, rfl, rfl, rfl, rfl, rfl, rfl, rfl,
      rfl, rfl, rfl, rfl, rfl, rfl, rfl, rfl, rfl, rfl, rfl, rfl⟩

/-! ## C6: lists are serialized text at rest, native arrays in memory -/

theorem decodeListCol_ok_of (v : Option String) (h : okCol v) :
    decodeListCol v = .ok (decodeD v) := by
  rcases h with rfl | ⟨l, rfl⟩
  · rfl
  · rw [decodeListCol_stringify]
    simp [decodeD, jsonParseList_stringify]

theorem hydrateProfile_ok_of_wf (r : ProfileRow) (h : listColsOk r) :
    hydrateProfile r = .ok (pureHydrate r) := by
  obtain ⟨h1, h2, h3, h4, h5, h6, h7, h8, h9, h10⟩ := h
  simp only [hydrateProfile, decodeListCol_ok_of r.tags h1,
    decodeListCol_ok_of r.parents h2, decodeListCol_ok_of r.kids h3,
    decodeListCol_ok_of r.brothers h4, decodeListCol_ok_of r.sisters h5,
    decodeListCol_ok_of r.siblings h6, decodeListCol_ok_of r.pets h7,
    decodeListCol_ok_of r.foodLikes h8,
    decodeListCol_ok_of r.foodDislikes h9,
    decodeListCol_ok_of r.interests h10]
  rfl

theorem mapM_hydrate_ok :
    ∀ l : List ProfileRow, (∀ r ∈ l, listColsOk r) →
      l.mapM hydrateProfile = .ok (l.map pureHydrate) := by
  intro l
  induction l with
  | nil => intro _; rfl
  | cons a l ih =>
    intro h
    simp only [List.mapM_cons,
      hydrateProfile_ok_of_wf a (h a (by simp)),
      ih (fun r hr => h r (by simp [hr])), List.map_cons]
    rfl

theorem listColsOk_rowOfInput (nid : Nat) (now : String)
    (p : ProfileInput) : listColsOk (rowOfInput nid now p) := by
  exact ⟨Or.inr ⟨_, rfl⟩, Or.inr ⟨_, rfl⟩, Or.inr ⟨_, rfl⟩,
    Or.inr ⟨_, rfl⟩, Or.inr ⟨_, rfl⟩, Or.inr ⟨_, rfl⟩, Or.inr ⟨_, rfl⟩,
    Or.inr ⟨_, rfl⟩, Or.inr ⟨_, rfl⟩, Or.inr ⟨_, rfl⟩⟩

theorem listColsOk_updateRow (now : String) (p : ProfileInput)
    (r : ProfileRow) : listColsOk (updateRow now p r) := by
  exact ⟨Or.inr ⟨_, rfl⟩, Or.inr ⟨_, rfl⟩, Or.inr ⟨_, rfl⟩,
    Or.inr ⟨_, rfl⟩, Or.inr ⟨_, rfl⟩, Or.inr ⟨_, rfl⟩, Or.inr ⟨_, rfl⟩,
    Or.inr ⟨_, rfl⟩, Or.inr ⟨_, rfl⟩, Or.inr ⟨_, rfl⟩⟩

theorem createOrUpdateProfileDb_wf (now : String) (p : ProfileInput)
    (db : DBState) (h : ∀ r ∈ db.profiles, listColsOk r) :
    ∀ r ∈ (createOrUpdateProfileDb now p db).1.profiles, listColsOk r := by
  rcases hpid : p.id with _ | i
  · rw [createOrUpdateProfileDb, hpid]
    dsimp only
    intro r hr
    rcases List.mem_append.mp hr with hr | hr
    · exact h r hr
    · rcases List.mem_singleton.mp hr with rfl
      exact listColsOk_rowOfInput _ _ _
  · rw [createOrUpdateProfileDb, hpid]
    dsimp only
    by_cases h0 : i = 0
    · rw [if_pos h0]
      intro r hr
      rcases List.mem_append.mp hr with hr | hr
      · exact h r hr
      · rcases List.mem_singleton.mp hr with rfl
        exact listColsOk_rowOfInput _ _ _
    · rw [if_neg h0]
      intro r hr
      rcases List.mem_map.mp hr with ⟨r0, hr0, rfl⟩
      by_cases hri : r0.id = i
      · rw [if_pos hri]
        exact listColsOk_updateRow _ _ _
      · rw [if_neg hri]
        exact h r0 hr0

/-- C6: on a database whose profile rows store each list-valued field as
`NULL` or serialized JSON text (which is exactly what
`createOrUpdateProfile` writes, and writing preserves), `getAllProfiles`
and `getProfileById` succeed and return each row hydrated with every
list-valued field a native array: `NULL`/absent stored values become `[]`
and serialized text parses back to the stored array. -/
theorem spec_C6 (env : RemoteEnv) (rnd : Nat) (now : String)
    (p : ProfileInput) (s : ServiceState)
    (hweb : s.isWebFallback = false)
    (hwf : ∀ r ∈ s.db.profiles, listColsOk r) :
    (∀ r ∈ (createOrUpdateProfile env rnd now p s).1.1.db.profiles,
      listColsOk r) ∧
    getAllProfiles s
      = .ok ((sortByUpdatedAtDesc s.db.profiles).map pureHydrate) ∧
    (∀ pid : Nat,
      getProfileById pid s
        = .ok ((s.db.profiles.find?
            (fun r => r.id = pid)).map pureHydrate)) ∧
    (∀ v : Option String,
      (v = none → decodeD v = []) ∧
      ∀ l, v = some (jsonStringifyList l) → decodeD v = l) ∧
    (∀ r : ProfileRow,
      (pureHydrate r).tags = decodeD r.tags ∧
      (pureHydrate r).parents = decodeD r.parents ∧
      (pureHydrate r).kids = decodeD r.kids ∧
      (pureHydrate r).brothers = decodeD r.brothers ∧
      (pureHydrate r).sisters = decodeD r.sisters ∧
      (pureHydrate r).siblings = decodeD r.siblings ∧
      (pureHydrate r).pets = decodeD r.pets ∧
      (pureHydrate r).foodLikes = decodeD r.foodLikes ∧
      (pureHydrate r).foodDislikes = decodeD r.foodDislikes ∧
      (pureHydrate r).interests = decodeD r.interests) := by
  refine ⟨?_, ?_, ?_, ?_, ?_⟩
  · have hkey : (createOrUpdateProfile env rnd now p s).1
        = ({ s with db := (createOrUpdateProfileDb now p s.db).1 },
           (createOrUpdateProfileDb now p s.db).2) := by
      rw [createOrUpdateProfile, if_neg (by simp [hweb])]
    rw [hkey]
    exact createOrUpdateProfileDb_wf now p s.db hwf
  · rw [getAllProfiles, if_neg (by simp [hweb])]
    refine mapM_hydrate_ok _ ?_
    intro r hr
    have : r ∈ s.db.profiles :=
      (List.Perm.mem_iff (List.perm_insertionSort _ _)).mp hr
    exact hwf r this
  · intro pid
    rw [getProfileById, if_neg (by simp [hweb])]
    cases hfind : s.db.profiles.find? (fun r => r.id = pid) with
    | none => rfl
    | some r =>
      show Except.map some (hydrateProfile r) = _
      rw [hydrateProfile_ok_of_wf r
        (hwf r (List.mem_of_find?_eq_some hfind))]
      rfl
  · intro v
    refine ⟨fun hv => by simp [hv, decodeD], fun l hv => by
      simp [hv, decodeD, jsonParseList_stringify]⟩
  · intro r
    exact ⟨rfl, rfl, rfl, rfl, rfl, rfl, rfl, rfl, rfl, rfl⟩

/-- Witness for C6 at a concrete two-row database. -/
theorem spec_C6_witness :
    (∀ r ∈ (createOrUpdateProfile .noSession 9 "2024-04-01" c7Input
        c2State).1.1.db.profiles, listColsOk r) ∧
    getAllProfiles c2State
      = .ok ((sortByUpdatedAtDesc c2State.db.profiles).map pureHydrate) ∧
    (∀ pid : Nat,
      getProfileById pid c2State
        = .ok ((c2State.db.profiles.find?
            (fun r => r.id = pid)).map pureHydrate)) ∧
    (∀ v : Option String,
      (v = none → decodeD v = []) ∧
      ∀ l, v = some (jsonStringifyList l) → decodeD v = l) ∧
    (∀ r : ProfileRow,
      (pureHydrate r).tags = decodeD r.tags ∧
      (pureHydrate r).parents = decodeD r.parents ∧
      (pureHydrate r).kids = decodeD r.kids ∧
      (pureHydrate r).brothers = decodeD r.brothers ∧
      (pureHydrate r).sisters = decodeD r.sisters ∧
      (pureHydrate r).siblings = decodeD r.siblings ∧
      (pureHydrate r).pets = decodeD r.pets ∧
      (pureHydrate r).foodLikes = decodeD r.foodLikes ∧
      (pureHydrate r).foodDislikes = decodeD r.foodDislikes ∧
      (pureHydrate r).interests = decodeD r.interests) :=
  spec_C6 .noSession 9 "2024-04-01" c7Input c2State rfl
    (by
      intro r hr
      simp only [c2State, List.mem_cons, List.not_mem_nil, or_false] at hr
      rcases hr with rfl | rfl
      · exact ⟨Or.inr ⟨_, rfl⟩, Or.inl rfl, Or.inl rfl, Or.inl rfl,
          Or.inl rfl, Or.inl rfl, Or.inl rfl, Or.inl rfl, Or.inl rfl,
          Or.inl rfl⟩
      · exact ⟨Or.inr ⟨_, rfl⟩, Or.inl rfl, Or.inl rfl, Or.inl rfl,
          Or.inl rfl, Or.inl rfl, Or.inl rfl, Or.inl rfl, Or.inl rfl,
          Or.inl rfl⟩)

/-! ## C10: reminders are listed in schedule order with their profile -/

theorem joinReminder_fields (P : List ProfileRow) (rm : ReminderRow) :
    (joinReminder P rm).id = rm.id ∧
    (joinReminder P rm).profileId = rm.profileId ∧
    (joinReminder P rm).title = rm.title ∧
    (joinReminder P rm).scheduledFor = rm.scheduledFor := by
  rw [joinReminder]
  dsimp only
  split <;> exact ⟨rfl, rfl, rfl, rfl⟩

theorem find?_pairwise_unique (l : List ProfileRow)
    (hl : l.Pairwise (fun a b => a.id ≠ b.id)) (pr : ProfileRow)
    (hmem : pr ∈ l) (o : Option Nat) (ho : o = some pr.id) :
    l.find? (fun q => o = some q.id) = some pr := by
  induction l with
  | nil => simp at hmem
  | cons a l ih =>
    rcases List.pairwise_cons.mp hl with ⟨ha, hl2⟩
    rw [List.find?_cons]
    rcases List.mem_cons.mp hmem with rfl | hm
    · rw [show (decide (o = some pr.id)) = true by simp [ho]]
    · have hne : a.id ≠ pr.id := ha pr hm
      have hd : (decide (o = some a.id)) = false := by
        rw [ho]
        simp only [Option.some.injEq, decide_eq_false_iff_not]
        exact fun h => hne h.symm
      rw [hd]
      exact ih hl2 hm

/-- C10: `getAllReminders` (non-web) returns the reminders sorted in
ascending `scheduledFor` order — a permutation of all stored reminders,
each carrying its own columns and, whenever a profile with the reminder's
`profileId` exists, that profile's name and photo from the `LEFT JOIN`.
The hypothesis records that profile ids (the primary key) are distinct. -/
theorem spec_C10 (db : DBState)
    (hids : db.profiles.Pairwise (fun a b => a.id ≠ b.id)) :
    List.Sorted
      (fun a b : JoinedReminder => a.scheduledFor ≤ b.scheduledFor)
      (getAllReminders db) ∧
    List.Perm (getAllReminders db)
      (db.reminders.map (joinReminder db.profiles)) ∧
    (∀ j ∈ getAllReminders db, ∀ pr ∈ db.profiles,
      j.profileId = some pr.id →
        j.profileName = some pr.name ∧ j.profilePhoto = pr.photoUri) ∧
    (∀ rm : ReminderRow,
      (joinReminder db.profiles rm).id = rm.id ∧
      (joinReminder db.profiles rm).profileId = rm.profileId ∧
      (joinReminder db.profiles rm).title = rm.title ∧
      (joinReminder db.profiles rm).scheduledFor = rm.scheduledFor) := by
  haveI : IsTotal JoinedReminder
      (fun a b => a.scheduledFor ≤ b.scheduledFor) :=
    ⟨fun a b => le_total _ _⟩
  haveI : IsTrans JoinedReminder
      (fun a b => a.scheduledFor ≤ b.scheduledFor) :=
    ⟨fun a b c => le_trans⟩
  refine ⟨List.sorted_insertionSort _ _, List.perm_insertionSort _ _,
    ?_, joinReminder_fields db.profiles⟩
  intro j hj pr hpr hjid
  have hj2 : j ∈ db.reminders.map (joinReminder db.profiles) :=
    (List.Perm.mem_iff (List.perm_insertionSort _ _)).mp hj
  rcases List.mem_map.mp hj2 with ⟨rm, hrm, rfl⟩
  have hpid : rm.profileId = some pr.id := by
    rw [← (joinReminder_fields db.profiles rm).2.1]
    exact hjid
  have hfind : db.profiles.find? (fun q => rm.profileId = some q.id)
      = some pr :=
    find?_pairwise_unique db.profiles hids pr hpr rm.profileId hpid
  constructor <;> simp [joinReminder, hfind]

/-- Witness for C10 at a concrete database. -/
theorem spec_C10_witness :
    List.Sorted
      (fun a b : JoinedReminder => a.scheduledFor ≤ b.scheduledFor)
      (getAllReminders c2State.db) ∧
    List.Perm (getAllReminders c2State.db)
      (c2State.db.reminders.map (joinReminder c2State.db.profiles)) ∧
    (∀ j ∈ getAllReminders c2State.db, ∀ pr ∈ c2State.db.profiles,
      j.profileId = some pr.id →
        j.profileName = some pr.name ∧ j.profilePhoto = pr.photoUri) ∧
    (∀ rm : ReminderRow,
      (joinReminder c2State.db.profiles rm).id = rm.id ∧
      (joinReminder c2State.db.profiles rm).profileId = rm.profileId ∧
      (joinReminder c2State.db.profiles rm).title = rm.title ∧
      (joinReminder c2State.db.profiles rm).scheduledFor
        = rm.scheduledFor) :=
  spec_C10 c2State.db
    (by
      simp only [c2State, List.pairwise_cons, List.mem_cons,
        List.not_mem_nil, or_false]
      refine ⟨fun b hb => ?_, ⟨fun b hb => absurd hb ?_, List.Pairwise.nil⟩⟩
      · subst hb; simp [sampleRow]
      · exact not_false)

/-- Witness for C2 at a concrete database with dependents. -/
theorem spec_C2_witness :
    getProfileById 1 (deleteProfile 1 c2State) = .ok none ∧
    (∀ r ∈ (deleteProfile 1 c2State).db.reminders,
      r.profileId ≠ some 1) ∧
    (∀ r ∈ (deleteProfile 1 c2State).db.interactions,
      r.profileId ≠ some 1) ∧
    (∀ r ∈ (deleteProfile 1 c2State).db.lifeEvents,
      r.profileId ≠ some 1) ∧
    (∀ q ∈ (deleteProfile 1 c2State).db.profiles, q.id ≠ 1) ∧
    (deleteProfile 1 c2State).db.feedback = c2State.db.feedback ∧
    (∀ q ∈ c2State.db.profiles, q.id ≠ 1 →
      q ∈ (deleteProfile 1 c2State).db.profiles) ∧
    (∀ r ∈ c2State.db.reminders, r.profileId ≠ some 1 →
      r ∈ (deleteProfile 1 c2State).db.reminders) ∧
    (∀ r ∈ c2State.db.interactions, r.profileId ≠ some 1 →
      r ∈ (deleteProfile 1 c2State).db.interactions) ∧
    (∀ r ∈ c2State.db.lifeEvents, r.profileId ≠ some 1 →
      r ∈ (deleteProfile 1 c2State).db.lifeEvents) :=
  spec_C2 c2State 1 rfl

/-- Witness for C7: updating profile 1 of a concrete two-profile state. -/
theorem spec_C7_witness :
    (createOrUpdateProfile .noSession 9 "2024-04-02" c7Input
      c7State).1.2 = 1 ∧
    (∀ r ∈ c7State.db.profiles, r.id ≠ 1 →
      r ∈ (createOrUpdateProfile .noSession 9 "2024-04-02" c7Input
        c7State).1.1.db.profiles) ∧
    (∀ r ∈ (createOrUpdateProfile .noSession 9 "2024-04-02" c7Input
        c7State).1.1.db.profiles,
      r.id ≠ 1 → r ∈ c7State.db.profiles) ∧
    (∀ r ∈ c7State.db.profiles, r.id = 1 →
      updateRow "2024-04-02" c7Input r
          ∈ (createOrUpdateProfile .noSession 9 "2024-04-02" c7Input
            c7State).1.1.db.profiles ∧
      (updateRow "2024-04-02" c7Input r).id = r.id ∧
      (updateRow "2024-04-02" c7Input r).createdAt = r.createdAt ∧
      (updateRow "2024-04-02" c7Input r).updatedAt = "2024-04-02" ∧
      (updateRow "2024-04-02" c7Input r).name = c7Input.name ∧
      (updateRow "2024-04-02" c7Input r).age = c7Input.age ∧
      (updateRow "2024-04-02" c7Input r).phone = c7Input.phone ∧
      (updateRow "2024-04-02" c7Input r).email = c7Input.email ∧
      (updateRow "2024-04-02" c7Input r).relationship
          = c7Input.relationship ∧
      (updateRow "2024-04-02" c7Input r).job = c7Input.job ∧
      (updateRow "2024-04-02" c7Input r).notes = c7Input.notes ∧
      (updateRow "2024-04-02" c7Input r).photoUri = c7Input.photoUri ∧
      (updateRow "2024-04-02" c7Input r).instagram = c7Input.instagram ∧
      (updateRow "2024-04-02" c7Input r).snapchat = c7Input.snapchat ∧
      (updateRow "2024-04-02" c7Input r).twitter = c7Input.twitter ∧
      (updateRow "2024-04-02" c7Input r).tiktok = c7Input.tiktok ∧
      (updateRow "2024-04-02" c7Input r).facebook = c7Input.facebook ∧
      (updateRow "2024-04-02" c7Input r).birthday = c7Input.birthday ∧
      (updateRow "2024-04-02" c7Input r).lastContactDate
          = c7Input.lastContactDate ∧
      (updateRow "2024-04-02" c7Input r).tags
          = some (jsonStringifyList c7Input.tags) ∧
      (updateRow "2024-04-02" c7Input r).parents
          = some (jsonStringifyList c7Input.parents) ∧
      (updateRow "2024-04-02" c7Input r).kids
          = some (jsonStringifyList c7Input.kids) ∧
      (updateRow "2024-04-02" c7Input r).brothers
          = some (jsonStringifyList c7Input.brothers) ∧
      (updateRow "2024-04-02" c7Input r).sisters
          = some (jsonStringifyList c7Input.sisters) ∧
      (updateRow "2024-04-02" c7Input r).siblings
          = some (jsonStringifyList c7Input.siblings) ∧
      (updateRow "2024-04-02" c7Input r).pets
          = some (jsonStringifyList c7Input.pets) ∧
      (updateRow "2024-04-02" c7Input r).foodLikes
          = some (jsonStringifyList c7Input.foodLikes) ∧
      (updateRow "2024-04-02" c7Input r).foodDislikes
          = some (jsonStringifyList c7Input.foodDislikes) ∧
      (updateRow "2024-04-02" c7Input r).interests
          = some (jsonStringifyList c7Input.interests)) ∧
    (createOrUpdateProfile .noSession 9 "2024-04-02" c7Input
      c7State).1.1.db.interactions = c7State.db.interactions ∧
    (createOrUpdateProfile .noSession 9 "2024-04-02" c7Input
      c7State).1.1.db.reminders = c7State.db.reminders ∧
    (createOrUpdateProfile .noSession 9 "2024-04-02" c7Input
      c7State).1.1.db.lifeEvents = c7State.db.lifeEvents ∧
    (createOrUpdateProfile .noSession 9 "2024-04-02" c7Input
      c7State).1.1.db.feedback = c7State.db.feedback :=
  spec_C7 .noSession 9 "2024-04-02" c7Input c7State 1 rfl rfl
    (by decide) ⟨sampleRow 1, by simp [c7State], rfl⟩

end Armi
